import Mathlib

/-!
# CVSS 4.0 scoring engine — verification development

Shallow embedding of the CVSS 4.0 calculator (adapted from the FIRST /
Red Hat reference implementation) and proofs about it.

Modelling conventions:
* A JavaScript metrics object is a partial map `String → Option String`
  (`none` plays the role of `undefined`).
* JavaScript numbers are modelled by exact rationals `ℚ`; all constants in
  the engine are decimal literals at 0.1 resolution, and the final rounding
  step carries the same `10⁻⁶` epsilon as the source.  `scoreToSeverity`
  additionally has to speak about `NaN`, so its argument type `JsNum`
  carries an explicit `nan` constructor.
* JavaScript string primitives (`split`, `indexOf`, `startsWith`, `trim`,
  first-occurrence `replace`, `join`) are defined here over `String.data`
  (lists of characters) with the exact JS semantics used by the engine.
-/

-- Batteries marks the `Rat` field operations `@[irreducible]`; restore
-- definitional transparency so that concrete scores evaluate by `decide`
-- (the kernel ignores reducibility attributes either way).
set_option allowUnsafeReducibility true in
attribute [semireducible] Rat.add Rat.mul Rat.sub Rat.inv Rat.div
  Rat.ofScientific

namespace CVSS4

/-- JS `s || d` for an optional string: `undefined` and `""` are falsy. -/
def jsOr (v : Option String) (d : String) : String :=
  match v with
  | some s => if s = "" then d else s
  | none => d

/-- JS `String.prototype.split` with a single-character separator,
on the character-list level.  Keeps empty chunks, `[] ↦ [[]]`. -/
def splitCharList (sep : Char) : List Char → List (List Char)
  | [] => [[]]
  | c :: cs =>
    if c = sep then [] :: splitCharList sep cs
    else
      match splitCharList sep cs with
      | [] => [[c]]
      | t :: ts => (c :: t) :: ts

/-- JS `s.split(sep)` for a one-character separator. -/
def jsSplit (s : String) (sep : Char) : List String :=
  (splitCharList sep s.data).map String.mk

/-- Index of the first occurrence of `pat` in a character list
(JS `indexOf`, with `none` for `-1`). -/
def subIndex (pat : List Char) : List Char → Option Nat
  | [] => if pat = [] then some 0 else none
  | c :: cs =>
    if pat.isPrefixOf (c :: cs) then some 0
    else (subIndex pat cs).map (· + 1)

/-- JS `s.indexOf(pat)` (`none` for `-1`). -/
def jsIndexOf (s pat : String) : Option Nat :=
  subIndex pat.data s.data

/-- JS `s.startsWith(pfx)`. -/
def jsStartsWith (s pfx : String) : Bool :=
  pfx.data.isPrefixOf s.data

/-- JS `s.trim()` (ASCII whitespace). -/
def jsTrim (s : String) : String :=
  String.mk ((s.data.dropWhile Char.isWhitespace).reverse.dropWhile
    Char.isWhitespace).reverse

/-- JS `s.replace(pat, "")` for a plain-string pattern: removes the first
occurrence of `pat` (the engine only applies it to the matched prefix). -/
def jsReplaceFirst (s pat : String) : String :=
  match subIndex pat.data s.data with
  | none => s
  | some i => String.mk (s.data.take i ++ s.data.drop (i + pat.data.length))

/-- JS `parts.join("/")`. -/
def joinSlash : List String → String
  | [] => ""
  | [p] => p
  | p :: q :: qs => p ++ "/" ++ joinSlash (q :: qs)

/-- A JS metrics object: partial map from metric keys to value strings. -/
abbrev Metrics : Type := String → Option String

/-- Builds a metrics object from explicit key/value pairs (first wins),
used to write down concrete inputs. -/
def mkMetrics (l : List (String × String)) : Metrics :=
  fun k => (l.find? (fun p => p.1 = k)).map (·.2)

/-- `CVSS4_METRICS[k].options.map(o => o.value)` — the declared value
enumeration of each base metric (empty for unknown keys). -/
def metricOptions (k : String) : List String :=
  if k = "AV" then ["N", "A", "L", "P"]
  else if k = "AC" then ["L", "H"]
  else if k = "AT" then ["N", "P"]
  else if k = "PR" then ["N", "L", "H"]
  else if k = "UI" then ["N", "P", "A"]
  else if k = "VC" then ["H", "L", "N"]
  else if k = "VI" then ["H", "L", "N"]
  else if k = "VA" then ["H", "L", "N"]
  else if k = "SC" then ["H", "L", "N"]
  else if k = "SI" then ["H", "L", "N"]
  else if k = "SA" then ["H", "L", "N"]
  else []

/-- `CVSS4_DEFAULTS` — spec defaults for the 11 base metrics. -/
def CVSS4_DEFAULTS (k : String) : Option String :=
  if k = "AV" then some "N"
  else if k = "AC" then some "L"
  else if k = "AT" then some "N"
  else if k = "PR" then some "N"
  else if k = "UI" then some "N"
  else if k = "VC" then some "N"
  else if k = "VI" then some "N"
  else if k = "VA" then some "N"
  else if k = "SC" then some "N"
  else if k = "SI" then some "N"
  else if k = "SA" then some "N"
  else none

/-- `BASE_METRIC_ORDER`. -/
def BASE_METRIC_ORDER : List String :=
  ["AV", "AC", "AT", "PR", "UI", "VC", "VI", "VA", "SC", "SI", "SA"]

/-- `LOOKUP_TABLE` — the official CVSS 4.0 MacroVector score table
(270 entries, keyed by the 6-digit MacroVector string). -/
def LOOKUP_TABLE : List (String × ℚ) := [
  ("000000", 10), ("000001", 9.9), ("000010", 9.8), ("000011", 9.5), ("000020", 9.5),
  ("000021", 9.2), ("000100", 10), ("000101", 9.6), ("000110", 9.3), ("000111", 8.7),
  ("000120", 9.1), ("000121", 8.1), ("000200", 9.3), ("000201", 9), ("000210", 8.9),
  ("000211", 8), ("000220", 8.1), ("000221", 6.8), ("001000", 9.8), ("001001", 9.5),
  ("001010", 9.5), ("001011", 9.2), ("001020", 9), ("001021", 8.4), ("001100", 9.3),
  ("001101", 9.2), ("001110", 8.9), ("001111", 8.1), ("001120", 8.1), ("001121", 6.5),
  ("001200", 8.8), ("001201", 8), ("001210", 7.8), ("001211", 7), ("001220", 6.9),
  ("001221", 4.8), ("002001", 9.2), ("002011", 8.2), ("002021", 7.2), ("002101", 7.9),
  ("002111", 6.9), ("002121", 5), ("002201", 6.9), ("002211", 5.5), ("002221", 2.7),
  ("010000", 9.9), ("010001", 9.7), ("010010", 9.5), ("010011", 9.2), ("010020", 9.2),
  ("010021", 8.5), ("010100", 9.5), ("010101", 9.1), ("010110", 9), ("010111", 8.3),
  ("010120", 8.4), ("010121", 7.1), ("010200", 9.2), ("010201", 8.1), ("010210", 8.2),
  ("010211", 7.1), ("010220", 7.2), ("010221", 5.3), ("011000", 9.5), ("011001", 9.3),
  ("011010", 9.2), ("011011", 8.5), ("011020", 8.5), ("011021", 7.3), ("011100", 9.2),
  ("011101", 8.2), ("011110", 8), ("011111", 7.2), ("011120", 7), ("011121", 5.9),
  ("011200", 8.4), ("011201", 7), ("011210", 7.1), ("011211", 5.2), ("011220", 5),
  ("011221", 3), ("012001", 8.6), ("012011", 7.5), ("012021", 5.2), ("012101", 7.1),
  ("012111", 5.2), ("012121", 2.9), ("012201", 6.3), ("012211", 2.9), ("012221", 1.7),
  ("100000", 9.8), ("100001", 9.5), ("100010", 9.4), ("100011", 8.7), ("100020", 9.1),
  ("100021", 8.1), ("100100", 9.4), ("100101", 8.9), ("100110", 8.6), ("100111", 7.4),
  ("100120", 7.7), ("100121", 6.4), ("100200", 8.7), ("100201", 7.5), ("100210", 7.4),
  ("100211", 6.3), ("100220", 6.3), ("100221", 4.9), ("101000", 9.4), ("101001", 8.9),
  ("101010", 8.8), ("101011", 7.7), ("101020", 7.6), ("101021", 6.7), ("101100", 8.6),
  ("101101", 7.6), ("101110", 7.4), ("101111", 5.8), ("101120", 5.9), ("101121", 5),
  ("101200", 7.2), ("101201", 5.7), ("101210", 5.7), ("101211", 5.2), ("101220", 5.2),
  ("101221", 2.5), ("102001", 8.3), ("102011", 7), ("102021", 5.4), ("102101", 6.5),
  ("102111", 5.8), ("102121", 2.6), ("102201", 5.3), ("102211", 2.1), ("102221", 1.3),
  ("110000", 9.5), ("110001", 9), ("110010", 8.8), ("110011", 7.6), ("110020", 7.6),
  ("110021", 7), ("110100", 9), ("110101", 7.7), ("110110", 7.5), ("110111", 6.2),
  ("110120", 6.1), ("110121", 5.3), ("110200", 7.7), ("110201", 6.6), ("110210", 6.8),
  ("110211", 5.9), ("110220", 5.2), ("110221", 3), ("111000", 8.9), ("111001", 7.8),
  ("111010", 7.6), ("111011", 6.7), ("111020", 6.2), ("111021", 5.8), ("111100", 7.4),
  ("111101", 5.9), ("111110", 5.7), ("111111", 5.7), ("111120", 4.7), ("111121", 2.3),
  ("111200", 6.1), ("111201", 5.2), ("111210", 5.7), ("111211", 2.9), ("111220", 2.4),
  ("111221", 1.6), ("112001", 7.1), ("112011", 5.9), ("112021", 3), ("112101", 5.8),
  ("112111", 2.6), ("112121", 1.5), ("112201", 2.3), ("112211", 1.3), ("112221", 0.6),
  ("200000", 9.3), ("200001", 8.7), ("200010", 8.6), ("200011", 7.2), ("200020", 7.5),
  ("200021", 5.8), ("200100", 8.6), ("200101", 7.4), ("200110", 7.4), ("200111", 6.1),
  ("200120", 5.6), ("200121", 3.4), ("200200", 7), ("200201", 5.4), ("200210", 5.2),
  ("200211", 4), ("200220", 4), ("200221", 2.2), ("201000", 8.5), ("201001", 7.5),
  ("201010", 7.4), ("201011", 5.5), ("201020", 6.2), ("201021", 5.1), ("201100", 7.2),
  ("201101", 5.7), ("201110", 5.5), ("201111", 4.1), ("201120", 4.6), ("201121", 1.9),
  ("201200", 5.3), ("201201", 3.6), ("201210", 3.4), ("201211", 1.9), ("201220", 1.9),
  ("201221", 0.8), ("202001", 6.4), ("202011", 5.1), ("202021", 2), ("202101", 4.7),
  ("202111", 2.1), ("202121", 1.1), ("202201", 2.4), ("202211", 0.9), ("202221", 0.4),
  ("210000", 8.8), ("210001", 7.5), ("210010", 7.3), ("210011", 5.3), ("210020", 6),
  ("210021", 5), ("210100", 7.3), ("210101", 5.5), ("210110", 5.9), ("210111", 4),
  ("210120", 4.1), ("210121", 2), ("210200", 5.4), ("210201", 4.3), ("210210", 4.5),
  ("210211", 2.2), ("210220", 2), ("210221", 1.1), ("211000", 7.5), ("211001", 5.5),
  ("211010", 5.8), ("211011", 4.5), ("211020", 4), ("211021", 2.1), ("211100", 6.1),
  ("211101", 5.1), ("211110", 4.8), ("211111", 1.8), ("211120", 2), ("211121", 0.9),
  ("211200", 4.6), ("211201", 1.8), ("211210", 1.7), ("211211", 0.7), ("211220", 0.8),
  ("211221", 0.2), ("212001", 5.3), ("212011", 2.4), ("212021", 1.4), ("212101", 2.4),
  ("212111", 1.2), ("212121", 0.5), ("212201", 1), ("212211", 0.3), ("212221", 0.1)]

/-- `LOOKUP_TABLE[k]` — JS object lookup (`none` for `undefined`). -/
def lookupTable (k : String) : Option ℚ :=
  (LOOKUP_TABLE.find? (fun p => p.1 = k)).map (·.2)

/-- `METRIC_LEVELS` — ordinal severity level of each metric value
(lower = more severe), in tenths as in the source; `none` = absent key
(JS `undefined`). -/
def metricLevel (metric v : String) : Option ℚ :=
  if metric = "AV" then
    if v = "N" then some 0.0 else if v = "A" then some 0.1
    else if v = "L" then some 0.2 else if v = "P" then some 0.3 else none
  else if metric = "PR" then
    if v = "N" then some 0.0 else if v = "L" then some 0.1
    else if v = "H" then some 0.2 else none
  else if metric = "UI" then
    if v = "N" then some 0.0 else if v = "P" then some 0.1
    else if v = "A" then some 0.2 else none
  else if metric = "AC" then
    if v = "L" then some 0.0 else if v = "H" then some 0.1 else none
  else if metric = "AT" then
    if v = "N" then some 0.0 else if v = "P" then some 0.1 else none
  else if metric = "VC" ∨ metric = "VI" ∨ metric = "VA" then
    if v = "H" then some 0.0 else if v = "L" then some 0.1
    else if v = "N" then some 0.2 else none
  else if metric = "SC" then
    if v = "H" then some 0.1 else if v = "L" then some 0.2
    else if v = "N" then some 0.3 else none
  else if metric = "SI" ∨ metric = "SA" then
    if v = "S" then some 0.0 else if v = "H" then some 0.1
    else if v = "L" then some 0.2 else if v = "N" then some 0.3 else none
  else if metric = "CR" ∨ metric = "IR" ∨ metric = "AR" then
    if v = "H" then some 0.0 else if v = "M" then some 0.1
    else if v = "L" then some 0.2 else none
  else if metric = "E" then
    if v = "U" then some 0.2 else if v = "P" then some 0.1
    else if v = "A" then some 0.0 else none
  else none

/-- `Object.keys(METRIC_LEVELS)` in insertion order. -/
def METRIC_LEVELS_KEYS : List String :=
  ["AV", "PR", "UI", "AC", "AT", "VC", "VI", "VA", "SC", "SI", "SA",
   "CR", "IR", "AR", "E"]

/-- `MAX_COMPOSED.eq1`. -/
def maxComposedEq1 (d : Nat) : List String :=
  if d = 0 then ["AV:N/PR:N/UI:N/"]
  else if d = 1 then ["AV:A/PR:N/UI:N/", "AV:N/PR:L/UI:N/", "AV:N/PR:N/UI:P/"]
  else if d = 2 then ["AV:P/PR:N/UI:N/", "AV:A/PR:L/UI:P/"]
  else []

/-- `MAX_COMPOSED.eq2`. -/
def maxComposedEq2 (d : Nat) : List String :=
  if d = 0 then ["AC:L/AT:N/"]
  else if d = 1 then ["AC:H/AT:N/", "AC:L/AT:P/"]
  else []

/-- `MAX_COMPOSED.eq3[eq3]?.[eq6] ?? []`. -/
def maxComposedEq3 (d3 d6 : Nat) : List String :=
  if d3 = 0 ∧ d6 = 0 then ["VC:H/VI:H/VA:H/CR:H/IR:H/AR:H/"]
  else if d3 = 0 ∧ d6 = 1 then
    ["VC:H/VI:H/VA:L/CR:M/IR:M/AR:H/", "VC:H/VI:H/VA:H/CR:M/IR:M/AR:M/"]
  else if d3 = 1 ∧ d6 = 0 then
    ["VC:L/VI:H/VA:H/CR:H/IR:H/AR:H/", "VC:H/VI:L/VA:H/CR:H/IR:H/AR:H/"]
  else if d3 = 1 ∧ d6 = 1 then
    ["VC:L/VI:H/VA:L/CR:H/IR:M/AR:H/", "VC:L/VI:H/VA:H/CR:H/IR:M/AR:M/",
     "VC:H/VI:L/VA:H/CR:M/IR:H/AR:M/", "VC:H/VI:L/VA:L/CR:M/IR:H/AR:H/",
     "VC:L/VI:L/VA:H/CR:H/IR:H/AR:M/"]
  else if d3 = 2 ∧ d6 = 1 then ["VC:L/VI:L/VA:L/CR:H/IR:H/AR:H/"]
  else []

/-- `MAX_COMPOSED.eq4`. -/
def maxComposedEq4 (d : Nat) : List String :=
  if d = 0 then ["SC:H/SI:S/SA:S/"]
  else if d = 1 then ["SC:H/SI:H/SA:H/"]
  else if d = 2 then ["SC:L/SI:L/SA:L/"]
  else []

/-- `MAX_COMPOSED.eq5`. -/
def maxComposedEq5 (d : Nat) : List String :=
  if d = 0 then ["E:A/"]
  else if d = 1 then ["E:P/"]
  else if d = 2 then ["E:U/"]
  else []

/-- `MAX_SEVERITY.eq1` (undefined digits never occur; junk `0`). -/
def maxSeverityEq1 (d : Nat) : ℚ :=
  if d = 0 then 1 else if d = 1 then 4 else if d = 2 then 5 else 0

/-- `MAX_SEVERITY.eq2`. -/
def maxSeverityEq2 (d : Nat) : ℚ :=
  if d = 0 then 1 else if d = 1 then 2 else 0

/-- `MAX_SEVERITY.eq3eq6[eq3]?.[eq6]` (`none` = `undefined`). -/
def maxSeverityEq3Eq6 (d3 d6 : Nat) : Option ℚ :=
  if d3 = 0 ∧ d6 = 0 then some 7
  else if d3 = 0 ∧ d6 = 1 then some 6
  else if d3 = 1 ∧ d6 = 0 then some 8
  else if d3 = 1 ∧ d6 = 1 then some 8
  else if d3 = 2 ∧ d6 = 1 then some 10
  else none

/-- `MAX_SEVERITY.eq4`. -/
def maxSeverityEq4 (d : Nat) : ℚ :=
  if d = 0 then 6 else if d = 1 then 5 else if d = 2 then 4 else 0

/-- `roundHalfUp` — `Math.round((value + 1e-6) * 10) / 10`;
`Math.round x = ⌊x + 1/2⌋`. -/
def roundHalfUp (value : ℚ) : ℚ :=
  (⌊(value + 1 / 1000000) * 10 + 1 / 2⌋ : ℤ) / 10

/-- `effectiveValue(metrics, metric)` — resolution with environmental
override, worst-case defaults for E/CR/IR/AR, and base defaults. -/
def effectiveValue (metrics : Metrics) (metric : String) : String :=
  let worstCase : String → Option String := fun m =>
    if m = "E" then some "A"
    else if m = "CR" ∨ m = "IR" ∨ m = "AR" then some "H"
    else none
  let base : String :=
    match metrics metric with
    | some v =>
      if v = "X" then
        match worstCase metric with
        | some w => w
        | none => jsOr (CVSS4_DEFAULTS metric) "N"
      else v
    | none =>
      match worstCase metric with
      | some w => w
      | none => jsOr (CVSS4_DEFAULTS metric) "N"
  match metrics ("M" ++ metric) with
  | some mv => if mv = "X" then base else mv
  | none => base

/-- `macroVector(metrics)` — the 6-digit MacroVector string. -/
def macroVector (metrics : Metrics) : String :=
  let AV := effectiveValue metrics "AV"
  let PR := effectiveValue metrics "PR"
  let UI := effectiveValue metrics "UI"
  let AC := effectiveValue metrics "AC"
  let AT := effectiveValue metrics "AT"
  let VC := effectiveValue metrics "VC"
  let VI := effectiveValue metrics "VI"
  let VA := effectiveValue metrics "VA"
  let SC := effectiveValue metrics "SC"
  let SI := effectiveValue metrics "SI"
  let SA := effectiveValue metrics "SA"
  let E := effectiveValue metrics "E"
  let CR := effectiveValue metrics "CR"
  let IR := effectiveValue metrics "IR"
  let AR := effectiveValue metrics "AR"
  let MSI := jsOr (metrics "MSI") "X"
  let MSA := jsOr (metrics "MSA") "X"
  let eq1 : Nat :=
    if AV = "N" ∧ PR = "N" ∧ UI = "N" then 0
    else if (AV = "N" ∨ PR = "N" ∨ UI = "N") ∧
        ¬(AV = "N" ∧ PR = "N" ∧ UI = "N") ∧ AV ≠ "P" then 1
    else 2
  let eq2 : Nat := if AC = "L" ∧ AT = "N" then 0 else 1
  let eq3 : Nat :=
    if VC = "H" ∧ VI = "H" then 0
    else if VC = "H" ∨ VI = "H" ∨ VA = "H" then 1
    else 2
  let eq4 : Nat :=
    if MSI = "S" ∨ MSA = "S" then 0
    else if SC = "H" ∨ SI = "H" ∨ SA = "H" then 1
    else 2
  let eq5 : Nat := if E = "A" then 0 else if E = "P" then 1 else 2
  let eq6 : Nat :=
    if (CR = "H" ∧ VC = "H") ∨ (IR = "H" ∧ VI = "H") ∨
        (AR = "H" ∧ VA = "H") then 0
    else 1
  toString eq1 ++ toString eq2 ++ toString eq3 ++ toString eq4 ++
    toString eq5 ++ toString eq6

end CVSS4

namespace CVSS4

/-- `extractFromStr(metric, str)` — value of `metric` inside a partial
vector string such as `"AV:N/PR:N/"` (`none` = JS `null`). -/
def extractFromStr (metric str : String) : Option String :=
  match jsIndexOf str (metric ++ ":") with
  | none => none
  | some idx =>
    let rest := String.mk (str.data.drop (idx + metric.data.length + 1))
    match jsIndexOf rest "/" with
    | none => some rest
    | some slashIdx => some (String.mk (rest.data.take slashIdx))

/-- `severityDistances(metrics, maxVectorStr)` — association list over the
metrics present in the max-vector string; an entry's `none` is the `NaN`
produced when the effective value has no declared level. -/
def severityDistances (metrics : Metrics) (maxVectorStr : String) :
    List (String × Option ℚ) :=
  METRIC_LEVELS_KEYS.filterMap (fun metric =>
    match extractFromStr metric maxVectorStr with
    | none => none
    | some maxVal =>
      some (metric,
        match metricLevel metric (effectiveValue metrics metric),
            metricLevel metric maxVal with
        | some a, some b => some (a - b)
        | _, _ => none))

/-- `distances[m] ?? 0` — absent metric contributes `0`; a `NaN` entry is
impossible on the path where this is read (the chosen distance set passed
the `every(v => v >= 0)` check), junk `0`. -/
def dget (d : List (String × Option ℚ)) (m : String) : ℚ :=
  match d.find? (fun p => p.1 = m) with
  | some (_, some q) => q
  | some (_, none) => 0
  | none => 0

end CVSS4

namespace CVSS4

/-- The `score_eq3eq6_next` selection inside `calculateScore`: the
next-lower MacroVector value for the coupled EQ3/EQ6 axes. -/
def scoreEq3Eq6Next (eq1 eq2 eq3 eq4 eq5 eq6 : Nat) : Option ℚ :=
  if eq3 = 1 ∧ eq6 = 1 then
    lookupTable (toString eq1 ++ toString eq2 ++ toString (eq3 + 1) ++
      toString eq4 ++ toString eq5 ++ toString eq6)
  else if eq3 = 0 ∧ eq6 = 1 then
    lookupTable (toString eq1 ++ toString eq2 ++ toString (eq3 + 1) ++
      toString eq4 ++ toString eq5 ++ toString eq6)
  else if eq3 = 1 ∧ eq6 = 0 then
    lookupTable (toString eq1 ++ toString eq2 ++ toString eq3 ++
      toString eq4 ++ toString eq5 ++ toString (eq6 + 1))
  else if eq3 = 0 ∧ eq6 = 0 then
    -- `Math.max(left ?? -Infinity, right ?? -Infinity)`, `undefined` if
    -- neither exists
    match lookupTable (toString eq1 ++ toString eq2 ++ toString eq3 ++
        toString eq4 ++ toString eq5 ++ toString (eq6 + 1)),
      lookupTable (toString eq1 ++ toString eq2 ++ toString (eq3 + 1) ++
        toString eq4 ++ toString eq5 ++ toString eq6) with
    | some l, some r => some (max l r)
    | some l, none => some l
    | none, some r => some r
    | none, none => none
  else
    lookupTable (toString eq1 ++ toString eq2 ++ toString (eq3 + 1) ++
      toString eq4 ++ toString eq5 ++ toString (eq6 + 1))

/-- `impactMetrics` inside `calculateScore`. -/
def impactMetrics : List String := ["VC", "VI", "VA", "SC", "SI", "SA"]

/-- `calculateScore(metrics)` — `none` is JS `null`. -/
def calculateScore (metrics : Metrics) : Option ℚ :=
  if impactMetrics.all (fun m => effectiveValue metrics m = "N") then
    some 0.0
  else
    let mv := macroVector metrics
    match lookupTable mv with
    | none => none
    | some value =>
      match mv.data.map (fun c => c.toNat - Char.toNat (Char.ofNat 48)) with
      | [eq1, eq2, eq3, eq4, eq5, eq6] =>
        let score_eq1_next := lookupTable (toString (eq1 + 1) ++
          toString eq2 ++ toString eq3 ++ toString eq4 ++ toString eq5 ++
          toString eq6)
        let score_eq2_next := lookupTable (toString eq1 ++
          toString (eq2 + 1) ++ toString eq3 ++ toString eq4 ++
          toString eq5 ++ toString eq6)
        let score_eq4_next := lookupTable (toString eq1 ++ toString eq2 ++
          toString eq3 ++ toString (eq4 + 1) ++ toString eq5 ++
          toString eq6)
        let score_eq5_next := lookupTable (toString eq1 ++ toString eq2 ++
          toString eq3 ++ toString eq4 ++ toString (eq5 + 1) ++
          toString eq6)
        let score_eq3eq6_next := scoreEq3Eq6Next eq1 eq2 eq3 eq4 eq5 eq6
        let eqMaxes1 := maxComposedEq1 eq1
        let eqMaxes2 := maxComposedEq2 eq2
        let eqMaxes3 := maxComposedEq3 eq3 eq6
        let eqMaxes4 := maxComposedEq4 eq4
        let eqMaxes5 := maxComposedEq5 eq5
        let maxVectors := eqMaxes1.flatMap (fun a =>
          eqMaxes2.flatMap (fun b => eqMaxes3.flatMap (fun c =>
            eqMaxes4.flatMap (fun d => eqMaxes5.map (fun e =>
              a ++ b ++ c ++ d ++ e)))))
        match maxVectors.find? (fun mvec =>
            (severityDistances metrics mvec).all (fun p =>
              match p.2 with
              | some v => decide (0 ≤ v)
              | none => false)) with
        | none => some value -- fallback to the raw lookup value
        | some mvec =>
          let distances := severityDistances metrics mvec
          let d_eq1 := dget distances "AV" + dget distances "PR" +
            dget distances "UI"
          let d_eq2 := dget distances "AC" + dget distances "AT"
          let d_eq3eq6 := dget distances "VC" + dget distances "VI" +
            dget distances "VA" + dget distances "CR" +
            dget distances "IR" + dget distances "AR"
          let d_eq4 := dget distances "SC" + dget distances "SI" +
            dget distances "SA"
          let STEP : ℚ := 0.1
          let maxSev_eq1 := maxSeverityEq1 eq1 * STEP
          let maxSev_eq2 := maxSeverityEq2 eq2 * STEP
          let maxSev_eq3eq6 := (maxSeverityEq3Eq6 eq3 eq6).map (· * STEP)
          let maxSev_eq4 := maxSeverityEq4 eq4 * STEP
          -- `!isNaN(avail_eqX)` ⟺ the next-lower MacroVector exists
          let p1 : Nat × ℚ :=
            match score_eq1_next with
            | some s => (1, (value - s) * (d_eq1 / maxSev_eq1))
            | none => (0, 0)
          let p2 : Nat × ℚ :=
            match score_eq2_next with
            | some s => (1, (value - s) * (d_eq2 / maxSev_eq2))
            | none => (0, 0)
          let p36 : Nat × ℚ :=
            match score_eq3eq6_next, maxSev_eq3eq6 with
            | some s, some ms =>
              if ms = 0 then (0, 0)  -- falsy `maxSev_eq3eq6`
              else (1, (value - s) * (d_eq3eq6 / ms))
            | _, _ => (0, 0)
          let p4 : Nat × ℚ :=
            match score_eq4_next with
            | some s => (1, (value - s) * (d_eq4 / maxSev_eq4))
            | none => (0, 0)
          let p5 : Nat × ℚ :=
            match score_eq5_next with
            | some _ => (1, 0)  -- EQ5 percent is always 0
            | none => (0, 0)
          let n := p1.1 + p2.1 + p36.1 + p4.1 + p5.1
          let meanDistance : ℚ :=
            if n = 0 then 0
            else (p1.2 + p2.2 + p36.2 + p4.2 + p5.2) / (n : ℚ)
          some (roundHalfUp (max 0 (min 10 (value - meanDistance))))
      | _ => none -- `mv` is always six digits; JS would score `NaN` here

/-- A JS number that may be `NaN` (only `scoreToSeverity` needs this). -/
inductive JsNum where
  | nan : JsNum
  | num (q : ℚ) : JsNum
deriving DecidableEq

/-- `scoreToSeverity(score)` — FIRST thresholds; `none` is JS `null`. -/
def scoreToSeverity (score : Option JsNum) : Option String :=
  match score with
  | none => none
  | some JsNum.nan => none
  | some (JsNum.num s) =>
    if s ≥ 9.0 then some "CRITICAL"
    else if s ≥ 7.0 then some "HIGH"
    else if s ≥ 4.0 then some "MEDIUM"
    else if s > 0.0 then some "LOW"
    else some "INFO"

/-- `metrics[k] || CVSS4_DEFAULTS[k]` — the value `buildVector` emits
for base metric `k` (a JS `undefined` default would stringify). -/
def builtValue (metrics : Metrics) (k : String) : String :=
  jsOr (metrics k) (jsOr (CVSS4_DEFAULTS k) "undefined")

/-- `buildVector(metrics)` — canonical 11-base-metric vector string. -/
def buildVector (metrics : Metrics) : String :=
  let parts := BASE_METRIC_ORDER.map (fun k =>
    k ++ ":" ++ builtValue metrics k)
  "CVSS:4.0/" ++ joinSlash parts

/-- Result of `parseVector`: `{ metrics, isValid, error }`. -/
structure ParseResult where
  metrics : Option Metrics
  isValid : Bool
  error : Option String

/-- The token-accumulation loop of `parseVector`: each `KEY:VALUE` part
with nonempty key and value assigns `metrics[KEY] = VALUE`
(later assignments win). -/
def tokensToMetrics (parts : List String) : Metrics :=
  parts.foldl (fun acc part =>
    match jsSplit part ':' with
    | k :: v :: _ =>
      if k ≠ "" ∧ v ≠ "" then fun key => if key = k then some v else acc key
      else acc
    | _ => acc) (fun _ => none)

/-- The required-base-metric validation loop of `parseVector`: the first
error it reports while scanning `BASE_METRIC_ORDER`. -/
def firstBaseError (metrics : Metrics) : Option String :=
  BASE_METRIC_ORDER.findSome? (fun key =>
    match metrics key with
    | none => some ("Missing metric: " ++ key)
    | some v =>
      if v = "" then some ("Missing metric: " ++ key)  -- falsy value
      else
        let validVals := metricOptions key
        if validVals.length ≠ 0 ∧ ¬ validVals.contains v then
          some ("Invalid value for " ++ key ++ ": " ++ v)
        else none)

/-- `parseVector(vectorString)`. -/
def parseVector (vectorString : String) : ParseResult :=
  if vectorString = "" then
    { metrics := none, isValid := false, error := some "Empty vector" }
  else
    let trimmed := jsTrim vectorString
    if ¬ jsStartsWith trimmed "CVSS:4.0/" then
      { metrics := none, isValid := false,
        error := some "Must start with CVSS:4.0/" }
    else
      let parts := jsSplit (jsReplaceFirst trimmed "CVSS:4.0/") '/'
      let metrics := tokensToMetrics parts
      match firstBaseError metrics with
      | some e =>
        { metrics := some metrics, isValid := false, error := some e }
      | none => { metrics := some metrics, isValid := true, error := none }

/-- Result of `vectorToScore`: `{ score, severity, isValid, error }`. -/
structure VectorScoreResult where
  score : Option ℚ
  severity : Option String
  isValid : Bool
  error : Option String

/-- `vectorToScore(vectorString)`. -/
def vectorToScore (vectorString : String) : VectorScoreResult :=
  let r := parseVector vectorString
  match r.metrics, r.isValid with
  | some metrics, true =>
    match calculateScore metrics with
    | none =>
      { score := none, severity := none, isValid := false,
        error := some "Could not calculate score" }
    | some score =>
      { score := some score,
        severity := scoreToSeverity (some (JsNum.num score)),
        isValid := true, error := none }
  | _, _ =>
    { score := none, severity := none, isValid := false, error := r.error }

/-- Result of `metricsToScore`: `{ score, severity, vector }`. -/
structure MetricsScoreResult where
  score : Option ℚ
  severity : Option String
  vector : String

/-- `metricsToScore(metrics)`. -/
def metricsToScore (metrics : Metrics) : MetricsScoreResult :=
  let vector := buildVector metrics
  let score := calculateScore metrics
  { score := score,
    severity := scoreToSeverity (score.map JsNum.num),
    vector := vector }

end CVSS4

namespace CVSS4

/-- JS `Math.max(l ?? -Infinity, r ?? -Infinity)` with the final
`undefined`-if-infinite guard: the maximum over whichever operands exist. -/
def optionMax (l r : Option ℚ) : Option ℚ :=
  match l, r with
  | some l, some r => some (max l r)
  | some l, none => some l
  | none, some r => some r
  | none, none => none

/-- All-impact-`N` metrics object with extreme exploitability metrics,
used as a concrete input. -/
def mAllN : Metrics :=
  mkMetrics [("AV", "P"), ("AC", "H"), ("AT", "P"), ("PR", "H"),
    ("UI", "A"), ("VC", "N"), ("VI", "N"), ("VA", "N"), ("SC", "N"),
    ("SI", "N"), ("SA", "N")]

/-- A metrics object whose `VC` value `"Z"` is outside the declared
enumeration of `VC`. -/
def mInvalidVC : Metrics :=
  mkMetrics [("AV", "N"), ("AC", "L"), ("AT", "N"), ("PR", "N"),
    ("UI", "N"), ("VC", "Z"), ("VI", "N"), ("VA", "N"), ("SC", "N"),
    ("SI", "N"), ("SA", "N")]

/-- A full-impact base metrics object extended with the threat metric
`E:U`, which is not serialised by `buildVector`. -/
def mThreatU : Metrics :=
  mkMetrics [("AV", "N"), ("AC", "L"), ("AT", "N"), ("PR", "N"),
    ("UI", "N"), ("VC", "H"), ("VI", "H"), ("VA", "H"), ("SC", "N"),
    ("SI", "N"), ("SA", "N"), ("E", "U")]

/-- The token map a vector string parses to (the token-accumulation
stage of `parseVector`, applied to the string's trimmed, de-prefixed
part). -/
def vectorAssignments (s : String) : Metrics :=
  tokensToMetrics (jsSplit (jsReplaceFirst (jsTrim s) "CVSS:4.0/") '/')

/-- Every value `buildVector` will emit lies in its metric's declared
enumeration; holds both when the caller supplied a valid value and when
the default is used. -/
def BuiltValuesValid (m : Metrics) : Prop :=
  ∀ k ∈ BASE_METRIC_ORDER, builtValue m k ∈ metricOptions k

/-- A metrics object that only assigns base metrics, each to a value in
its declared enumeration (the hypothesis under which the stored vector
string determines the score). -/
def BaseOnlyValid (m : Metrics) : Prop :=
  ∀ k v, m k = some v → k ∈ BASE_METRIC_ORDER ∧ v ∈ metricOptions k

/-- The six classifier digit expressions of `macroVector`. -/
def eq1Digit (m : Metrics) : Nat :=
  if effectiveValue m "AV" = "N" ∧ effectiveValue m "PR" = "N" ∧
      effectiveValue m "UI" = "N" then 0
  else if (effectiveValue m "AV" = "N" ∨ effectiveValue m "PR" = "N" ∨
      effectiveValue m "UI" = "N") ∧
      ¬(effectiveValue m "AV" = "N" ∧ effectiveValue m "PR" = "N" ∧
        effectiveValue m "UI" = "N") ∧
      effectiveValue m "AV" ≠ "P" then 1
  else 2

def eq2Digit (m : Metrics) : Nat :=
  if effectiveValue m "AC" = "L" ∧ effectiveValue m "AT" = "N" then 0
  else 1

def eq3Digit (m : Metrics) : Nat :=
  if effectiveValue m "VC" = "H" ∧ effectiveValue m "VI" = "H" then 0
  else if effectiveValue m "VC" = "H" ∨ effectiveValue m "VI" = "H" ∨
      effectiveValue m "VA" = "H" then 1
  else 2

def eq4Digit (m : Metrics) : Nat :=
  if jsOr (m "MSI") "X" = "S" ∨ jsOr (m "MSA") "X" = "S" then 0
  else if effectiveValue m "SC" = "H" ∨ effectiveValue m "SI" = "H" ∨
      effectiveValue m "SA" = "H" then 1
  else 2

def eq5Digit (m : Metrics) : Nat :=
  if effectiveValue m "E" = "A" then 0
  else if effectiveValue m "E" = "P" then 1
  else 2

def eq6Digit (m : Metrics) : Nat :=
  if (effectiveValue m "CR" = "H" ∧ effectiveValue m "VC" = "H") ∨
      (effectiveValue m "IR" = "H" ∧ effectiveValue m "VI" = "H") ∨
      (effectiveValue m "AR" = "H" ∧ effectiveValue m "VA" = "H") then 0
  else 1

/-- Spec-side formulation of the required-metric scan: the first base
metric in the fixed order that is absent or carries an out-of-enumeration
value, reported with the corresponding message. -/
def specFirstError (metrics : Metrics) : Option String :=
  match BASE_METRIC_ORDER.find? (fun key =>
      jsOr (metrics key) "" = "" ∨
        ¬ (metricOptions key).contains (jsOr (metrics key) "") = true) with
  | none => none
  | some key =>
    some (if jsOr (metrics key) "" = "" then "Missing metric: " ++ key
      else "Invalid value for " ++ key ++ ": " ++ jsOr (metrics key) "")

end CVSS4

namespace CVSS4

/-- C3: if all six impact metrics resolve to effective value `N`, the
score is exactly `0.0` (the short-circuit before the table lookup) and
the severity label is `INFO`, whatever the exploitability metrics are. -/
theorem calculateScore_zero_impact (metrics : Metrics)
    (h : ∀ k ∈ impactMetrics, effectiveValue metrics k = "N") :
    calculateScore metrics = some 0 ∧
      scoreToSeverity ((calculateScore metrics).map JsNum.num) =
        some "INFO" := by
  have hall : (impactMetrics.all
      (fun m => effectiveValue metrics m = "N")) = true := by
    rw [List.all_eq_true]
    intro m hm
    exact decide_eq_true (h m hm)
  have hscore : calculateScore metrics = some 0 := by
    unfold calculateScore
    rw [if_pos hall]
    norm_num
  refine ⟨hscore, ?_⟩
  rw [hscore]
  show scoreToSeverity (some (JsNum.num 0)) = some "INFO"
  simp only [scoreToSeverity]
  norm_num

/-- C3 witness: a concrete all-`N`-impact object with the most severe
exploitability settings. -/
theorem calculateScore_zero_impact_witness :
    (∀ k ∈ impactMetrics, effectiveValue mAllN k = "N") ∧
      (calculateScore mAllN = some 0 ∧
        scoreToSeverity ((calculateScore mAllN).map JsNum.num) =
          some "INFO") :=
  ⟨by decide, calculateScore_zero_impact mAllN (by decide)⟩

/-- C9: `scoreToSeverity` returns no label for `null`/`NaN`, and maps a
numeric score through the fixed thresholds `9.0 / 7.0 / 4.0 / 0.0`. -/
theorem scoreToSeverity_thresholds :
    scoreToSeverity none = none ∧
    scoreToSeverity (some JsNum.nan) = none ∧
    (∀ s : ℚ, 9 ≤ s →
      scoreToSeverity (some (JsNum.num s)) = some "CRITICAL") ∧
    (∀ s : ℚ, 7 ≤ s → s < 9 →
      scoreToSeverity (some (JsNum.num s)) = some "HIGH") ∧
    (∀ s : ℚ, 4 ≤ s → s < 7 →
      scoreToSeverity (some (JsNum.num s)) = some "MEDIUM") ∧
    (∀ s : ℚ, 0 < s → s < 4 →
      scoreToSeverity (some (JsNum.num s)) = some "LOW") ∧
    (scoreToSeverity (some (JsNum.num 0)) = some "INFO") := by
  have e9 : (9.0 : ℚ) = 9 := by norm_num
  have e7 : (7.0 : ℚ) = 7 := by norm_num
  have e4 : (4.0 : ℚ) = 4 := by norm_num
  have e0 : (0.0 : ℚ) = 0 := by norm_num
  refine ⟨rfl, rfl, ?_, ?_, ?_, ?_, ?_⟩
  · intro s h
    simp only [scoreToSeverity, e9, ge_iff_le]
    rw [if_pos h]
  · intro s h1 h2
    simp only [scoreToSeverity, e9, e7, ge_iff_le]
    rw [if_neg (by linarith), if_pos h1]
  · intro s h1 h2
    simp only [scoreToSeverity, e9, e7, e4, ge_iff_le]
    rw [if_neg (by linarith), if_neg (by linarith), if_pos h1]
  · intro s h1 h2
    simp only [scoreToSeverity, e9, e7, e4, e0, ge_iff_le, gt_iff_lt]
    rw [if_neg (by linarith), if_neg (by linarith), if_neg (by linarith),
      if_pos h1]
  · simp only [scoreToSeverity]
    norm_num

/-- C9 witness: the boundary scores `9.0`, `7.0`, `4.0`, `0.0`. -/
theorem scoreToSeverity_thresholds_witness :
    scoreToSeverity (some (JsNum.num 9)) = some "CRITICAL" ∧
    scoreToSeverity (some (JsNum.num 7)) = some "HIGH" ∧
    scoreToSeverity (some (JsNum.num 4)) = some "MEDIUM" ∧
    scoreToSeverity (some (JsNum.num 0)) = some "INFO" :=
  ⟨scoreToSeverity_thresholds.2.2.1 9 (by norm_num),
   scoreToSeverity_thresholds.2.2.2.1 7 (by norm_num) (by norm_num),
   scoreToSeverity_thresholds.2.2.2.2.1 4 (by norm_num) (by norm_num),
   scoreToSeverity_thresholds.2.2.2.2.2.2⟩

set_option maxRecDepth 40000

set_option maxHeartbeats 1000000

/-- C4 counterexample: the lookup table does not have 246 keys — it has
270 entries (with pairwise distinct keys, shown in the amended theorem). -/
theorem lookupTable_not_246 : ¬ LOOKUP_TABLE.length = 246 := by decide

/-- C4 (amended): the MacroVector lookup table is a static map with
exactly 270 pairwise-distinct keys, and every value lies in `[0, 10]`
and is an integer multiple of `0.1`. -/
theorem lookupTable_shape :
    LOOKUP_TABLE.length = 270 ∧
    (LOOKUP_TABLE.map Prod.fst).Nodup ∧
    ∀ p ∈ LOOKUP_TABLE, 0 ≤ p.2 ∧ p.2 ≤ 10 ∧ (p.2 * 10).den = 1 := by
  refine ⟨by decide, by decide, by decide⟩

end CVSS4

namespace CVSS4

/-- Each base metric has a nonempty declared enumeration. -/
theorem metricOptions_ne_nil {k : String} (hk : k ∈ BASE_METRIC_ORDER) :
    (metricOptions k).length ≠ 0 := by
  fin_cases hk <;> decide

/-- If the required-metric scan reports no error, every base metric is
bound to a nonempty value inside its declared enumeration. -/
theorem firstBaseError_none_spec {m : Metrics}
    (h : firstBaseError m = none) :
    ∀ k ∈ BASE_METRIC_ORDER, ∃ v, m k = some v ∧ v ≠ "" ∧
      (metricOptions k).contains v = true := by
  intro k hk
  unfold firstBaseError at h
  have hk0 := List.findSome?_eq_none_iff.mp h k hk
  rcases hv : m k with _ | v
  · simp [hv] at hk0
  · simp only [hv] at hk0
    by_cases hve : v = ""
    · simp [if_pos hve] at hk0
    · simp only [if_neg hve] at hk0
      refine ⟨v, rfl, hve, ?_⟩
      simp only [ite_eq_right_iff] at hk0
      by_cases hc : (metricOptions k).contains v = true
      · exact hc
      · exact absurd (hk0 ⟨metricOptions_ne_nil hk, hc⟩) (by simp)

/-- C6 counterexample: `mInvalidVC` carries `VC = "Z"`, outside the
declared enumeration of `VC` and distinct from the placeholder `"X"`,
yet scoring raises no error and returns the numeric score `6.9` (the raw
table value of its MacroVector; interpolation is silently skipped). -/
theorem invalid_value_scores_anyway :
    (metricOptions "VC").contains "Z" = false ∧
    mInvalidVC "VC" = some "Z" ∧
    (metricsToScore mInvalidVC).score = some (mkRat 69 10) := by
  refine ⟨by decide, by decide, by decide⟩

/-- C6 (amended): scoring performs no enumeration validation — it can
return a numeric score for an out-of-enumeration value (see the
counterexample) — and the only enumeration check lives in `parseVector`:
any vector string whose parse succeeds binds every required base metric
to a value inside its declared enumeration. -/
theorem parse_valid_implies_values_in_enum (s : String)
    (h : (parseVector s).isValid = true) :
    ∀ k ∈ BASE_METRIC_ORDER, ∃ p v, (parseVector s).metrics = some p ∧
      p k = some v ∧ (metricOptions k).contains v = true := by
  intro k hk
  by_cases h1 : s = ""
  · simp [parseVector, if_pos h1] at h
  · simp only [parseVector, if_neg h1] at h ⊢
    by_cases h2 : ¬ jsStartsWith (jsTrim s) "CVSS:4.0/" = true
    · rw [if_pos h2] at h
      simp at h
    · rw [if_neg h2] at h ⊢
      rcases hfind : firstBaseError (tokensToMetrics
          (jsSplit (jsReplaceFirst (jsTrim s) "CVSS:4.0/") '/')) with _ | e
      · obtain ⟨v, hv, hne, hvc⟩ := firstBaseError_none_spec hfind k hk
        simp only [hfind]
        exact ⟨_, v, rfl, hv, hvc⟩
      · simp only [hfind] at h
        simp at h

/-- C6 witness for the amended theorem: a concrete valid vector. -/
theorem parse_valid_implies_values_in_enum_witness :
    (parseVector
      "CVSS:4.0/AV:N/AC:L/AT:N/PR:N/UI:N/VC:H/VI:H/VA:H/SC:N/SI:N/SA:N"
      ).isValid = true ∧
    ∀ k ∈ BASE_METRIC_ORDER, ∃ p v,
      (parseVector
        "CVSS:4.0/AV:N/AC:L/AT:N/PR:N/UI:N/VC:H/VI:H/VA:H/SC:N/SI:N/SA:N"
        ).metrics = some p ∧
      p k = some v ∧ (metricOptions k).contains v = true :=
  ⟨by decide, parse_valid_implies_values_in_enum _ (by decide)⟩

end CVSS4

namespace CVSS4

/-- C7: the EQ3/EQ6 neighbor is selected exactly as documented: for
(0,0) the maximum over whichever single-step candidates exist; for
(0,1) and (1,1) only EQ3 is stepped; for (1,0) only EQ6 is stepped;
otherwise both digits are stepped simultaneously. -/
theorem eq3eq6_neighbor_selection (eq1 eq2 eq3 eq4 eq5 eq6 : Nat) :
    (eq3 = 0 → eq6 = 0 →
      scoreEq3Eq6Next eq1 eq2 eq3 eq4 eq5 eq6 =
        optionMax
          (lookupTable (toString eq1 ++ toString eq2 ++ toString eq3 ++
            toString eq4 ++ toString eq5 ++ toString (eq6 + 1)))
          (lookupTable (toString eq1 ++ toString eq2 ++
            toString (eq3 + 1) ++ toString eq4 ++ toString eq5 ++
            toString eq6))) ∧
    ((eq3 = 0 ∨ eq3 = 1) → eq6 = 1 →
      scoreEq3Eq6Next eq1 eq2 eq3 eq4 eq5 eq6 =
        lookupTable (toString eq1 ++ toString eq2 ++ toString (eq3 + 1) ++
          toString eq4 ++ toString eq5 ++ toString eq6)) ∧
    (eq3 = 1 → eq6 = 0 →
      scoreEq3Eq6Next eq1 eq2 eq3 eq4 eq5 eq6 =
        lookupTable (toString eq1 ++ toString eq2 ++ toString eq3 ++
          toString eq4 ++ toString eq5 ++ toString (eq6 + 1))) ∧
    (eq3 ≠ 0 → eq3 ≠ 1 →
      scoreEq3Eq6Next eq1 eq2 eq3 eq4 eq5 eq6 =
        lookupTable (toString eq1 ++ toString eq2 ++ toString (eq3 + 1) ++
          toString eq4 ++ toString eq5 ++ toString (eq6 + 1))) := by
  refine ⟨?_, ?_, ?_, ?_⟩
  · intro h3 h6
    subst h3; subst h6
    simp only [scoreEq3Eq6Next]
    norm_num [optionMax]
  · rintro (h3 | h3) h6 <;> subst h3 <;> subst h6 <;>
      simp only [scoreEq3Eq6Next] <;> norm_num
  · intro h3 h6
    subst h3; subst h6
    simp only [scoreEq3Eq6Next]
    norm_num
  · intro h3a h3b
    simp only [scoreEq3Eq6Next]
    rw [if_neg (by omega), if_neg (by omega), if_neg (by omega),
      if_neg (by omega)]

/-- C7 witness: concrete digit pairs exercising each branch; the (0,0)
branch at context `(0,0,_,0,0,_)` where both single-step candidates
exist. -/
theorem eq3eq6_neighbor_selection_witness :
    scoreEq3Eq6Next 0 0 0 0 0 0 =
      optionMax (lookupTable ("0" ++ "0" ++ "0" ++ "0" ++ "0" ++
        toString (0 + 1)))
        (lookupTable ("0" ++ "0" ++ toString (0 + 1) ++ "0" ++ "0" ++
          "0")) ∧
    scoreEq3Eq6Next 0 0 1 0 0 1 =
      lookupTable ("0" ++ "0" ++ toString (1 + 1) ++ "0" ++ "0" ++ "1") ∧
    scoreEq3Eq6Next 0 0 1 0 0 0 =
      lookupTable ("0" ++ "0" ++ "1" ++ "0" ++ "0" ++ toString (0 + 1)) ∧
    scoreEq3Eq6Next 0 0 2 0 0 1 =
      lookupTable ("0" ++ "0" ++ toString (2 + 1) ++ "0" ++ "0" ++
        toString (1 + 1)) :=
  ⟨(eq3eq6_neighbor_selection 0 0 0 0 0 0).1 rfl rfl,
   (eq3eq6_neighbor_selection 0 0 1 0 0 1).2.1 (Or.inr rfl) rfl,
   (eq3eq6_neighbor_selection 0 0 1 0 0 0).2.2.1 rfl rfl,
   (eq3eq6_neighbor_selection 0 0 2 0 0 1).2.2.2 (by decide) (by decide)⟩

end CVSS4

namespace CVSS4

/-- C1 counterexample: `metricsToScore` scores `mThreatU` with its threat
metric `E:U` (score 8.1, HIGH), but the returned vector string carries
only the 11 base metrics, so recomputing from it yields 9.3, CRITICAL. -/
theorem metricsToScore_not_recomputable_from_vector :
    (metricsToScore mThreatU).score = some (mkRat 81 10) ∧
    (metricsToScore mThreatU).severity = some "HIGH" ∧
    (vectorToScore (metricsToScore mThreatU).vector).score =
      some (mkRat 93 10) ∧
    (vectorToScore (metricsToScore mThreatU).vector).severity =
      some "CRITICAL" := by
  refine ⟨by decide, by decide, by decide, by decide⟩

end CVSS4

namespace CVSS4

/-- Every in-range digit combination except `EQ3 = 2 ∧ EQ6 = 0` is a key
of the lookup table, and the digit string parses back to the digits. -/
theorem key_props (e1 e2 e3 e4 e5 e6 : Nat) (h1 : e1 ≤ 2) (h2 : e2 ≤ 1)
    (h3 : e3 ≤ 2) (h4 : e4 ≤ 2) (h5 : e5 ≤ 2) (h6 : e6 ≤ 1)
    (h36 : e3 = 2 → e6 = 1) :
    (lookupTable (toString e1 ++ toString e2 ++ toString e3 ++
      toString e4 ++ toString e5 ++ toString e6)).isSome = true ∧
    (toString e1 ++ toString e2 ++ toString e3 ++ toString e4 ++
        toString e5 ++ toString e6).data.map
      (fun c => c.toNat - Char.toNat (Char.ofNat 48)) =
      [e1, e2, e3, e4, e5, e6] := by
  interval_cases e1 <;> interval_cases e2 <;> interval_cases e3 <;>
    interval_cases e4 <;> interval_cases e5 <;> interval_cases e6 <;>
    first
      | exact absurd (h36 rfl) (by decide)
      | exact ⟨by decide, by decide⟩

/-- `macroVector` is the concatenation of its six digit expressions. -/
theorem macroVector_eq_digits (m : Metrics) :
    macroVector m = toString (eq1Digit m) ++ toString (eq2Digit m) ++
      toString (eq3Digit m) ++ toString (eq4Digit m) ++
      toString (eq5Digit m) ++ toString (eq6Digit m) := rfl

theorem eq1Digit_le (m : Metrics) : eq1Digit m ≤ 2 := by
  unfold eq1Digit; split_ifs <;> norm_num

theorem eq2Digit_le (m : Metrics) : eq2Digit m ≤ 1 := by
  unfold eq2Digit; split_ifs <;> norm_num

theorem eq3Digit_le (m : Metrics) : eq3Digit m ≤ 2 := by
  unfold eq3Digit; split_ifs <;> norm_num

theorem eq4Digit_le (m : Metrics) : eq4Digit m ≤ 2 := by
  unfold eq4Digit; split_ifs <;> norm_num

theorem eq5Digit_le (m : Metrics) : eq5Digit m ≤ 2 := by
  unfold eq5Digit; split_ifs <;> norm_num

theorem eq6Digit_le (m : Metrics) : eq6Digit m ≤ 1 := by
  unfold eq6Digit; split_ifs <;> norm_num

/-- The coupling: a fully non-`H` impact triple (EQ3 = 2) defeats every
environmental-requirement conjunction, so EQ6 = 1. -/
theorem eq3Digit_two_imp_eq6Digit_one (m : Metrics)
    (h3 : eq3Digit m = 2) : eq6Digit m = 1 := by
  by_cases hcon : effectiveValue m "VC" = "H" ∨
      effectiveValue m "VI" = "H" ∨ effectiveValue m "VA" = "H"
  · exfalso
    unfold eq3Digit at h3
    by_cases hA : effectiveValue m "VC" = "H" ∧ effectiveValue m "VI" = "H"
    · rw [if_pos hA] at h3
      exact absurd h3 (by norm_num)
    · rw [if_neg hA, if_pos hcon] at h3
      exact absurd h3 (by norm_num)
  · push_neg at hcon
    unfold eq6Digit
    have hc : ¬ ((effectiveValue m "CR" = "H" ∧
        effectiveValue m "VC" = "H") ∨
        (effectiveValue m "IR" = "H" ∧ effectiveValue m "VI" = "H") ∨
        (effectiveValue m "AR" = "H" ∧ effectiveValue m "VA" = "H")) := by
      rintro (⟨_, h⟩ | ⟨_, h⟩ | ⟨_, h⟩)
      · exact hcon.1 h
      · exact hcon.2.1 h
      · exact hcon.2.2 h
    rw [if_neg hc]

end CVSS4

namespace CVSS4

/-- C10: the classifier's 6-digit MacroVector is always a key of the
lookup table (the classifier never produces `EQ3 = 2` together with
`EQ6 = 0`, and every other combination it can produce is present), so
`calculateScore` never returns the table-miss `null`. -/
theorem classifier_key_always_in_table (m : Metrics) :
    (lookupTable (macroVector m)).isSome = true ∧
      calculateScore m ≠ none := by
  obtain ⟨hmem, hdig⟩ := key_props (eq1Digit m) (eq2Digit m) (eq3Digit m)
    (eq4Digit m) (eq5Digit m) (eq6Digit m) (eq1Digit_le m)
    (eq2Digit_le m) (eq3Digit_le m) (eq4Digit_le m) (eq5Digit_le m)
    (eq6Digit_le m) (eq3Digit_two_imp_eq6Digit_one m)
  refine ⟨by rw [macroVector_eq_digits m]; exact hmem, ?_⟩
  simp only [calculateScore]
  split_ifs with hz
  · simp
  · rw [macroVector_eq_digits m]
    rcases hval : lookupTable (toString (eq1Digit m) ++
        toString (eq2Digit m) ++ toString (eq3Digit m) ++
        toString (eq4Digit m) ++ toString (eq5Digit m) ++
        toString (eq6Digit m)) with _ | value
    · rw [hval] at hmem
      simp at hmem
    · simp only [hval, hdig]
      rcases hfind : (maxComposedEq1 (eq1Digit m)).flatMap (fun a =>
          (maxComposedEq2 (eq2Digit m)).flatMap (fun b =>
            (maxComposedEq3 (eq3Digit m) (eq6Digit m)).flatMap (fun c =>
              (maxComposedEq4 (eq4Digit m)).flatMap (fun d =>
                (maxComposedEq5 (eq5Digit m)).map (fun e =>
                  a ++ b ++ c ++ d ++ e))))) |>.find? (fun mvec =>
            (severityDistances m mvec).all (fun p =>
              match p.2 with
              | some v => decide (0 ≤ v)
              | none => false)) with _ | mvec
      · simp [hfind]
      · simp [hfind]

/-- C10 witness: the classifier/table totality instantiated at the
all-`N` metrics object. -/
theorem classifier_key_always_in_table_witness :
    (lookupTable (macroVector mAllN)).isSome = true ∧
      calculateScore mAllN ≠ none :=
  classifier_key_always_in_table mAllN

end CVSS4

namespace CVSS4

theorem splitCharList_not_mem (sep : Char) (a : List Char)
    (h : sep ∉ a) : splitCharList sep a = [a] := by
  induction a with
  | nil => rfl
  | cons c cs ih =>
    rw [splitCharList,
      if_neg (fun hc => h (by rw [← hc]; exact List.mem_cons_self c cs)),
      ih (fun hm => h (List.mem_cons_of_mem c hm))]

theorem splitCharList_append (sep : Char) (a rest : List Char)
    (h : sep ∉ a) :
    splitCharList sep (a ++ sep :: rest) = a :: splitCharList sep rest := by
  induction a with
  | nil => simp [splitCharList]
  | cons c cs ih =>
    rw [List.cons_append, splitCharList,
      if_neg (fun hc => h (by rw [← hc]; exact List.mem_cons_self c cs)),
      ih (fun hm => h (List.mem_cons_of_mem c hm))]

theorem jsSplit_joinSlash (parts : List String) (hne : parts ≠ [])
    (h : ∀ p ∈ parts, ('/' : Char) ∉ p.data) :
    jsSplit (joinSlash parts) '/' = parts := by
  induction parts with
  | nil => exact absurd rfl hne
  | cons p ps ih =>
    cases ps with
    | nil =>
      show (splitCharList '/' (joinSlash [p]).data).map String.mk = [p]
      rw [joinSlash, splitCharList_not_mem _ _
        (h p (List.mem_cons_self p []))]
      rfl
    | cons q qs =>
      show (splitCharList '/' (joinSlash (p :: q :: qs)).data).map
        String.mk = p :: q :: qs
      have hdata : (joinSlash (p :: q :: qs)).data =
          p.data ++ '/' :: (joinSlash (q :: qs)).data := by
        show (p ++ "/" ++ joinSlash (q :: qs)).data = _
        simp [String.data_append]
      rw [hdata, splitCharList_append _ _ _
        (h p (List.mem_cons_self p _))]
      have := ih (List.cons_ne_nil q qs)
        (fun r hr => h r (List.mem_cons_of_mem p hr))
      show String.mk p.data :: (splitCharList '/'
        (joinSlash (q :: qs)).data).map String.mk = p :: q :: qs
      rw [show String.mk p.data = p from rfl]
      exact congrArg (p :: ·) this

theorem jsStartsWith_append (pfx rest : String) :
    jsStartsWith (pfx ++ rest) pfx = true := by
  simp [jsStartsWith, String.data_append, List.isPrefixOf_iff_prefix]

theorem subIndex_isPrefix (pat s : List Char)
    (h : pat.isPrefixOf s = true) : subIndex pat s = some 0 := by
  cases s with
  | nil =>
    cases pat with
    | nil => rfl
    | cons c cs => simp [List.isPrefixOf] at h
  | cons c cs => rw [subIndex, if_pos h]

theorem jsReplaceFirst_append (pfx rest : String) :
    jsReplaceFirst (pfx ++ rest) pfx = rest := by
  unfold jsReplaceFirst
  rw [subIndex_isPrefix _ _
    (by simp [String.data_append, List.isPrefixOf_iff_prefix])]
  show String.mk ((pfx ++ rest).data.take 0 ++
    (pfx ++ rest).data.drop (0 + pfx.data.length)) = rest
  rw [List.take_zero, List.nil_append, Nat.zero_add, String.data_append,
    List.drop_left]

theorem dropWhile_eq_self_of (p : Char → Bool) (l : List Char)
    (h : ∀ c ∈ l, ¬ p c = true) : l.dropWhile p = l := by
  cases l with
  | nil => rfl
  | cons c cs =>
    rw [List.dropWhile_cons, if_neg (h c (List.mem_cons_self c cs))]

theorem jsTrim_eq_self (s : String)
    (h : ∀ c ∈ s.data, ¬ c.isWhitespace = true) : jsTrim s = s := by
  unfold jsTrim
  rw [dropWhile_eq_self_of _ _ h,
    dropWhile_eq_self_of _ _ (fun c hc => h c (by
      exact List.mem_reverse.mp hc)), List.reverse_reverse]

end CVSS4

namespace CVSS4

theorem jsSplit_token (k v : String) (hk : (':' : Char) ∉ k.data)
    (hv : (':' : Char) ∉ v.data) : jsSplit (k ++ ":" ++ v) ':' = [k, v] := by
  show (splitCharList ':' (k ++ ":" ++ v).data).map String.mk = [k, v]
  have hdata : (k ++ ":" ++ v).data = k.data ++ ':' :: v.data := by
    simp [String.data_append]
  rw [hdata, splitCharList_append _ _ _ hk, splitCharList_not_mem _ _ hv]
  rfl

theorem tokensToMetrics_foldl_aux (pairs : List (String × String))
    (acc : Metrics)
    (h : ∀ p ∈ pairs, p.1 ≠ "" ∧ p.2 ≠ "" ∧ (':' : Char) ∉ p.1.data ∧
      (':' : Char) ∉ p.2.data) (key : String) :
    (pairs.map (fun p => p.1 ++ ":" ++ p.2)).foldl (fun acc part =>
      match jsSplit part ':' with
      | k :: v :: _ =>
        if k ≠ "" ∧ v ≠ "" then fun key => if key = k then some v else acc key
        else acc
      | _ => acc) acc key =
      match pairs.reverse.find? (fun p => key = p.1) with
      | some p => some p.2
      | none => acc key := by
  induction pairs generalizing acc with
  | nil => simp
  | cons p ps ih =>
    rw [List.map_cons, List.foldl_cons]
    have hp := h p (List.mem_cons_self p ps)
    have hsplit := jsSplit_token p.1 p.2 hp.2.2.1 hp.2.2.2
    simp only [hsplit]
    rw [if_pos ⟨hp.1, hp.2.1⟩]
    rw [ih _ (fun q hq => h q (List.mem_cons_of_mem p hq))]
    rw [List.reverse_cons, List.find?_append]
    rcases hf : ps.reverse.find? (fun q => decide (key = q.1)) with _ | q
    · rw [hf]
      simp only [Option.or]
      rcases hkey : decide (key = p.1) with _ | _
      · simp only [List.find?, hkey]
        rw [if_neg (of_decide_eq_false hkey)]
      · simp only [List.find?, hkey]
        rw [if_pos (of_decide_eq_true hkey)]
    · rw [hf]
      simp only [Option.or]

end CVSS4

namespace CVSS4

theorem tokensToMetrics_pairs (pairs : List (String × String))
    (h : ∀ p ∈ pairs, p.1 ≠ "" ∧ p.2 ≠ "" ∧ (':' : Char) ∉ p.1.data ∧
      (':' : Char) ∉ p.2.data) (key : String) :
    tokensToMetrics (pairs.map (fun p => p.1 ++ ":" ++ p.2)) key =
      match pairs.reverse.find? (fun p => key = p.1) with
      | some p => some p.2
      | none => none :=
  tokensToMetrics_foldl_aux pairs (fun _ => none) h key

theorem base_key_facts :
    ∀ k ∈ BASE_METRIC_ORDER, k ≠ "" ∧ (':' : Char) ∉ k.data ∧
      ('/' : Char) ∉ k.data ∧ ∀ c ∈ k.data, ¬ c.isWhitespace = true := by
  decide

theorem option_value_facts :
    ∀ k ∈ BASE_METRIC_ORDER, ∀ v ∈ metricOptions k, v ≠ "" ∧
      (':' : Char) ∉ v.data ∧ ('/' : Char) ∉ v.data ∧
      ∀ c ∈ v.data, ¬ c.isWhitespace = true := by
  decide

theorem mem_joinSlash_data (parts : List String) (c : Char)
    (hc : c ∈ (joinSlash parts).data) :
    c = '/' ∨ ∃ p ∈ parts, c ∈ p.data := by
  induction parts with
  | nil => simp [joinSlash] at hc
  | cons p ps ih =>
    cases ps with
    | nil =>
      rw [joinSlash] at hc
      exact Or.inr ⟨p, List.mem_cons_self p [], hc⟩
    | cons q qs =>
      rw [show joinSlash (p :: q :: qs) = p ++ "/" ++ joinSlash (q :: qs)
        from rfl] at hc
      simp only [String.data_append] at hc
      rcases List.mem_append.mp hc with h1 | h2
      · rcases List.mem_append.mp h1 with ha | hb
        · exact Or.inr ⟨p, List.mem_cons_self p _, ha⟩
        · left
          simpa using hb
      · rcases ih h2 with ha | ⟨r, hr, hcr⟩
        · exact Or.inl ha
        · exact Or.inr ⟨r, List.mem_cons_of_mem p hr, hcr⟩

end CVSS4

namespace CVSS4

theorem buildVector_parts_facts (m : Metrics) (hv : BuiltValuesValid m) :
    ∀ p ∈ BASE_METRIC_ORDER.map (fun k => k ++ ":" ++ builtValue m k),
      ('/' : Char) ∉ p.data ∧ ∀ c ∈ p.data, ¬ c.isWhitespace = true := by
  intro p hp
  obtain ⟨k, hk, rfl⟩ := List.mem_map.mp hp
  obtain ⟨hk1, hk2, hk3, hk4⟩ := base_key_facts k hk
  obtain ⟨hv1, hv2, hv3, hv4⟩ := option_value_facts k hk _ (hv k hk)
  have hdata : (k ++ ":" ++ builtValue m k).data =
      k.data ++ ':' :: (builtValue m k).data := by
    simp [String.data_append]
  constructor
  · rw [hdata]
    intro hmem
    rcases List.mem_append.mp hmem with h | h
    · exact hk3 h
    · rcases List.mem_cons.mp h with h | h
      · exact absurd h (by decide)
      · exact hv3 h
  · intro c hc
    rw [hdata] at hc
    rcases List.mem_append.mp hc with h | h
    · exact hk4 c h
    · rcases List.mem_cons.mp h with h | h
      · subst h
        decide
      · exact hv4 c h

theorem buildVector_no_ws (m : Metrics) (hv : BuiltValuesValid m) :
    ∀ c ∈ (buildVector m).data, ¬ c.isWhitespace = true := by
  intro c hc
  rw [show buildVector m = "CVSS:4.0/" ++ joinSlash
    (BASE_METRIC_ORDER.map (fun k => k ++ ":" ++ builtValue m k))
    from rfl, String.data_append] at hc
  have hpfx : ∀ c ∈ ("CVSS:4.0/" : String).data,
      ¬ c.isWhitespace = true := by decide
  rcases List.mem_append.mp hc with h | h
  · exact hpfx c h
  · rcases mem_joinSlash_data _ c h with h | ⟨p, hp, hcp⟩
    · subst h
      decide
    · exact (buildVector_parts_facts m hv p hp).2 c hcp

theorem trimmed_buildVector (m : Metrics) (hv : BuiltValuesValid m) :
    jsTrim (buildVector m) = buildVector m :=
  jsTrim_eq_self _ (buildVector_no_ws m hv)

theorem parseVector_eq_of_pfx (s : String) (hne : s ≠ "")
    (hsw : jsStartsWith (jsTrim s) "CVSS:4.0/" = true) :
    parseVector s =
      match firstBaseError (vectorAssignments s) with
      | some e => ⟨some (vectorAssignments s), false, some e⟩
      | none => ⟨some (vectorAssignments s), true, none⟩ := by
  unfold parseVector vectorAssignments
  rw [if_neg hne, if_neg (by simp [hsw])]

theorem vectorAssignments_buildVector (m : Metrics)
    (hv : BuiltValuesValid m) (key : String) :
    vectorAssignments (buildVector m) key =
      match (BASE_METRIC_ORDER.map (fun k =>
          (k, builtValue m k))).reverse.find? (fun p => key = p.1) with
      | some p => some p.2
      | none => none := by
  unfold vectorAssignments
  rw [trimmed_buildVector m hv]
  rw [show buildVector m = "CVSS:4.0/" ++ joinSlash
    (BASE_METRIC_ORDER.map (fun k => k ++ ":" ++ builtValue m k))
    from rfl]
  rw [jsReplaceFirst_append]
  rw [jsSplit_joinSlash _ (by simp [BASE_METRIC_ORDER])
    (fun p hp => (buildVector_parts_facts m hv p hp).1)]
  rw [show BASE_METRIC_ORDER.map (fun k => k ++ ":" ++ builtValue m k) =
    (BASE_METRIC_ORDER.map (fun k => (k, builtValue m k))).map
      (fun p => p.1 ++ ":" ++ p.2) from by
    rw [List.map_map]
    rfl]
  exact tokensToMetrics_pairs _ (fun p hp => by
    obtain ⟨k, hk, rfl⟩ := List.mem_map.mp hp
    exact ⟨(base_key_facts k hk).1,
      (option_value_facts k hk _ (hv k hk)).1,
      (base_key_facts k hk).2.1,
      (option_value_facts k hk _ (hv k hk)).2.1⟩) key

theorem vectorAssignments_buildVector_base (m : Metrics)
    (hv : BuiltValuesValid m) (k : String) (hk : k ∈ BASE_METRIC_ORDER) :
    vectorAssignments (buildVector m) k = some (builtValue m k) := by
  rw [vectorAssignments_buildVector m hv k]
  fin_cases hk <;> rfl

theorem vectorAssignments_buildVector_not_base (m : Metrics)
    (hv : BuiltValuesValid m) (key : String)
    (hk : key ∉ BASE_METRIC_ORDER) :
    vectorAssignments (buildVector m) key = none := by
  rw [vectorAssignments_buildVector m hv key]
  have hnone : (BASE_METRIC_ORDER.map (fun k =>
      (k, builtValue m k))).reverse.find? (fun p => key = p.1) = none := by
    rw [List.find?_eq_none]
    intro p hp
    obtain ⟨kk, hkk, rfl⟩ := List.mem_map.mp (List.mem_reverse.mp hp)
    intro hd
    exact hk (by rw [of_decide_eq_true hd]; exact hkk)
  rw [hnone]

end CVSS4

namespace CVSS4

theorem firstBaseError_none_of {m : Metrics}
    (h : ∀ k ∈ BASE_METRIC_ORDER, ∃ v, m k = some v ∧ v ≠ "" ∧
      (metricOptions k).contains v = true) : firstBaseError m = none := by
  unfold firstBaseError
  rw [List.findSome?_eq_none_iff]
  intro k hk
  obtain ⟨v, hv, hne, hc⟩ := h k hk
  rw [hv]
  simp only [if_neg hne]
  rw [if_neg]
  rintro ⟨_, hnc⟩
  exact hnc hc

theorem contains_of_mem {l : List String} {v : String} (h : v ∈ l) :
    l.contains v = true := by
  simpa using h

theorem parseVector_buildVector (m : Metrics) (hv : BuiltValuesValid m) :
    parseVector (buildVector m) =
      ⟨some (vectorAssignments (buildVector m)), true, none⟩ := by
  have hne : buildVector m ≠ "" := by
    intro h
    have hd := congrArg String.data h
    rw [show buildVector m = "CVSS:4.0/" ++ joinSlash
      (BASE_METRIC_ORDER.map (fun k => k ++ ":" ++ builtValue m k))
      from rfl, String.data_append] at hd
    simp at hd
  have hsw : jsStartsWith (jsTrim (buildVector m)) "CVSS:4.0/" = true := by
    rw [trimmed_buildVector m hv]
    rw [show buildVector m = "CVSS:4.0/" ++ joinSlash
      (BASE_METRIC_ORDER.map (fun k => k ++ ":" ++ builtValue m k))
      from rfl]
    exact jsStartsWith_append _ _
  rw [parseVector_eq_of_pfx _ hne hsw]
  rw [firstBaseError_none_of (fun k hk =>
    ⟨builtValue m k, vectorAssignments_buildVector_base m hv k hk,
      (option_value_facts k hk _ (hv k hk)).1,
      contains_of_mem (hv k hk)⟩)]

/-- C5: for every syntactically valid vector string `V`,
`buildVector (parseVector V).metrics` carries exactly the same
assignments for the 11 base metrics as `V` (the assignments of a vector
string being its parsed token map). -/
theorem roundtrip_base_assignments (V : String)
    (h : (parseVector V).isValid = true) :
    ∃ p, (parseVector V).metrics = some p ∧
      ∀ k ∈ BASE_METRIC_ORDER,
        vectorAssignments (buildVector p) k = p k := by
  by_cases h1 : V = ""
  · simp [parseVector, if_pos h1] at h
  · by_cases h2 : ¬ jsStartsWith (jsTrim V) "CVSS:4.0/" = true
    · unfold parseVector at h
      rw [if_neg h1, if_pos h2] at h
      simp at h
    · push_neg at h2
      rw [parseVector_eq_of_pfx V h1 h2] at h ⊢
      rcases hfind : firstBaseError (vectorAssignments V) with _ | e
      · refine ⟨vectorAssignments V, rfl, ?_⟩
        intro k hk
        obtain ⟨v, hv, hne, hc⟩ :=
          firstBaseError_none_spec hfind k hk
        have hbuilt : builtValue (vectorAssignments V) k = v := by
          simp [builtValue, jsOr, hv, hne]
        have hvalid : BuiltValuesValid (vectorAssignments V) := by
          intro k2 hk2
          obtain ⟨v2, hv2, hne2, hc2⟩ :=
            firstBaseError_none_spec hfind k2 hk2
          have hb2 : builtValue (vectorAssignments V) k2 = v2 := by
            simp [builtValue, jsOr, hv2, hne2]
          rw [hb2]
          simpa using hc2
        rw [vectorAssignments_buildVector_base _ hvalid k hk, hbuilt, hv]
      · rw [hfind] at h
        simp at h

/-- C5 witness: a concrete valid vector string with extra tokens. -/
theorem roundtrip_base_assignments_witness :
    (parseVector
      "CVSS:4.0/AV:L/AC:H/AT:P/PR:L/UI:A/VC:L/VI:N/VA:H/SC:L/SI:N/SA:H/E:P"
      ).isValid = true ∧
    ∃ p, (parseVector
      "CVSS:4.0/AV:L/AC:H/AT:P/PR:L/UI:A/VC:L/VI:N/VA:H/SC:L/SI:N/SA:H/E:P"
      ).metrics = some p ∧
      ∀ k ∈ BASE_METRIC_ORDER,
        vectorAssignments (buildVector p) k = p k :=
  ⟨by decide, roundtrip_base_assignments _ (by decide)⟩

end CVSS4

namespace CVSS4

theorem X_not_in_options : ∀ k ∈ BASE_METRIC_ORDER,
    "X" ∉ metricOptions k := by decide

theorem M_append_not_base (key : String) :
    ("M" ++ key) ∉ BASE_METRIC_ORDER := by
  intro h
  simp only [BASE_METRIC_ORDER, List.mem_cons, List.not_mem_nil,
    or_false] at h
  rcases h with h | h | h | h | h | h | h | h | h | h | h <;>
    (have hd := congrArg String.data h; simp [String.data_append] at hd)

theorem effectiveValue_some_not_X (m : Metrics) (key v : String)
    (hM : m ("M" ++ key) = none) (hK : m key = some v) (hvx : v ≠ "X") :
    effectiveValue m key = v := by
  unfold effectiveValue
  rw [hM, hK]
  simp [hvx]

theorem effectiveValue_none (m : Metrics) (key : String)
    (hM : m ("M" ++ key) = none) (hK : m key = none) :
    effectiveValue m key = effectiveValue (fun _ => none) key := by
  unfold effectiveValue
  rw [hM, hK]

theorem builtValuesValid_of_baseOnly (m : Metrics)
    (h1 : BaseOnlyValid m) : BuiltValuesValid m := by
  intro k hk
  unfold builtValue
  rcases hv : m k with _ | v
  · fin_cases hk <;> decide
  · have hvopt := (h1 k v hv).2
    simp [jsOr, (option_value_facts k hk v hvopt).1]
    exact hvopt

theorem parsed_effectiveValue_eq (m : Metrics) (h1 : BaseOnlyValid m)
    (key : String) :
    effectiveValue (vectorAssignments (buildVector m)) key =
      effectiveValue m key := by
  have hbv := builtValuesValid_of_baseOnly m h1
  have hMp : vectorAssignments (buildVector m) ("M" ++ key) = none :=
    vectorAssignments_buildVector_not_base m hbv _ (M_append_not_base key)
  have hMm : m ("M" ++ key) = none := by
    rcases hmm : m ("M" ++ key) with _ | v
    · rfl
    · exact absurd (h1 _ _ hmm).1 (M_append_not_base key)
  by_cases hk : key ∈ BASE_METRIC_ORDER
  · have hp : vectorAssignments (buildVector m) key =
        some (builtValue m key) :=
      vectorAssignments_buildVector_base m hbv key hk
    have hx : builtValue m key ≠ "X" := by
      intro hxname
      have hmem := hbv key hk
      rw [hxname] at hmem
      exact X_not_in_options key hk hmem
    rw [effectiveValue_some_not_X _ key (builtValue m key) hMp hp hx]
    rcases hmk : m key with _ | v
    · rw [effectiveValue_none m key hMm hmk]
      unfold builtValue
      rw [hmk]
      fin_cases hk <;> rfl
    · have hvopt := (h1 key v hmk).2
      have hvx : v ≠ "X" := by
        intro hxv
        rw [hxv] at hvopt
        exact X_not_in_options key hk hvopt
      rw [effectiveValue_some_not_X m key v hMm hmk hvx]
      unfold builtValue
      rw [hmk]
      simp [jsOr, (option_value_facts key hk v hvopt).1]
  · have hpn : vectorAssignments (buildVector m) key = none :=
      vectorAssignments_buildVector_not_base m hbv key hk
    have hmn : m key = none := by
      rcases hmk : m key with _ | v
      · rfl
      · exact absurd (h1 _ _ hmk).1 hk
    rw [effectiveValue_none _ key hMp hpn,
      effectiveValue_none m key hMm hmn]

theorem msi_not_base : "MSI" ∉ BASE_METRIC_ORDER := by decide

theorem msa_not_base : "MSA" ∉ BASE_METRIC_ORDER := by decide

theorem calculateScore_congr (m1 m2 : Metrics)
    (heff : ∀ key, effectiveValue m1 key = effectiveValue m2 key)
    (hmsi : jsOr (m1 "MSI") "X" = jsOr (m2 "MSI") "X")
    (hmsa : jsOr (m1 "MSA") "X" = jsOr (m2 "MSA") "X") :
    calculateScore m1 = calculateScore m2 := by
  have hmac : macroVector m1 = macroVector m2 := by
    unfold macroVector
    simp only [heff, hmsi, hmsa]
  have hsev : ∀ s, severityDistances m1 s = severityDistances m2 s := by
    intro s
    unfold severityDistances
    simp only [heff]
  unfold calculateScore
  simp only [heff, hmac, hsev]

end CVSS4

namespace CVSS4

theorem vectorToScore_of_parse_ok (s : String) (p : Metrics)
    (hp : parseVector s = ⟨some p, true, none⟩) :
    vectorToScore s =
      match calculateScore p with
      | none =>
        ⟨none, none, false, some "Could not calculate score"⟩
      | some score =>
        ⟨some score, scoreToSeverity (some (JsNum.num score)), true,
          none⟩ := by
  unfold vectorToScore
  rw [hp]

theorem mkMetrics_baseOnlyValid (l : List (String × String))
    (hl : ∀ p ∈ l, p.1 ∈ BASE_METRIC_ORDER ∧ p.2 ∈ metricOptions p.1) :
    BaseOnlyValid (mkMetrics l) := by
  intro k v h
  unfold mkMetrics at h
  rcases hf : l.find? (fun p => p.1 = k) with _ | p
  · rw [hf] at h
    simp at h
  · rw [hf] at h
    simp only [Option.map_some'] at h
    have hmem := List.mem_of_find?_eq_some hf
    have hkey : p.1 = k := by
      have hb := List.find?_some hf
      simpa using hb
    have hv2 : p.2 = v := Option.some.inj h
    rw [← hkey, ← hv2]
    exact hl p hmem

/-- C1 (amended): for a metrics object that assigns only the 11 base
metrics, each to a value of its declared enumeration, the score and
severity of `metricsToScore` are exactly recomputable from the returned
vector string alone: `vectorToScore` on that string agrees on both. -/
theorem metricsToScore_recomputable (m : Metrics)
    (h1 : BaseOnlyValid m) :
    (vectorToScore (metricsToScore m).vector).score =
      (metricsToScore m).score ∧
    (vectorToScore (metricsToScore m).vector).severity =
      (metricsToScore m).severity := by
  have hbv := builtValuesValid_of_baseOnly m h1
  have hmsi : jsOr (vectorAssignments (buildVector m) "MSI") "X" =
      jsOr (m "MSI") "X" := by
    rw [vectorAssignments_buildVector_not_base m hbv _ msi_not_base]
    rcases hmm : m "MSI" with _ | v
    · rfl
    · exact absurd (h1 _ _ hmm).1 msi_not_base
  have hmsa : jsOr (vectorAssignments (buildVector m) "MSA") "X" =
      jsOr (m "MSA") "X" := by
    rw [vectorAssignments_buildVector_not_base m hbv _ msa_not_base]
    rcases hmm : m "MSA" with _ | v
    · rfl
    · exact absurd (h1 _ _ hmm).1 msa_not_base
  have hcongr : calculateScore (vectorAssignments (buildVector m)) =
      calculateScore m :=
    calculateScore_congr _ _ (parsed_effectiveValue_eq m h1) hmsi hmsa
  have hvec : (metricsToScore m).vector = buildVector m := rfl
  rw [hvec, vectorToScore_of_parse_ok (buildVector m)
    (vectorAssignments (buildVector m)) (parseVector_buildVector m hbv),
    hcongr]
  cases hs : calculateScore m with
  | none =>
    constructor
    · show (none : Option ℚ) = (metricsToScore m).score
      show (none : Option ℚ) = calculateScore m
      rw [hs]
    · show (none : Option String) = (metricsToScore m).severity
      show (none : Option String) =
        scoreToSeverity ((calculateScore m).map JsNum.num)
      rw [hs]
      rfl
  | some s =>
    constructor
    · show some s = calculateScore m
      rw [hs]
    · show scoreToSeverity (some (JsNum.num s)) =
        scoreToSeverity ((calculateScore m).map JsNum.num)
      rw [hs]
      rfl

/-- C1 witness (amended theorem): a concrete base-only metrics object. -/
theorem metricsToScore_recomputable_witness :
    BaseOnlyValid (mkMetrics [("AV", "A"), ("AC", "H"), ("AT", "P"),
      ("PR", "L"), ("UI", "P"), ("VC", "L"), ("VI", "H"), ("VA", "N"),
      ("SC", "N"), ("SI", "L"), ("SA", "H")]) ∧
    ((vectorToScore (metricsToScore (mkMetrics [("AV", "A"), ("AC", "H"),
        ("AT", "P"), ("PR", "L"), ("UI", "P"), ("VC", "L"), ("VI", "H"),
        ("VA", "N"), ("SC", "N"), ("SI", "L"), ("SA", "H")])).vector
      ).score =
      (metricsToScore (mkMetrics [("AV", "A"), ("AC", "H"), ("AT", "P"),
        ("PR", "L"), ("UI", "P"), ("VC", "L"), ("VI", "H"), ("VA", "N"),
        ("SC", "N"), ("SI", "L"), ("SA", "H")])).score ∧
    (vectorToScore (metricsToScore (mkMetrics [("AV", "A"), ("AC", "H"),
        ("AT", "P"), ("PR", "L"), ("UI", "P"), ("VC", "L"), ("VI", "H"),
        ("VA", "N"), ("SC", "N"), ("SI", "L"), ("SA", "H")])).vector
      ).severity =
      (metricsToScore (mkMetrics [("AV", "A"), ("AC", "H"), ("AT", "P"),
        ("PR", "L"), ("UI", "P"), ("VC", "L"), ("VI", "H"), ("VA", "N"),
        ("SC", "N"), ("SI", "L"), ("SA", "H")])).severity) :=
  ⟨mkMetrics_baseOnlyValid _ (by decide),
   metricsToScore_recomputable _ (mkMetrics_baseOnlyValid _ (by decide))⟩

end CVSS4

namespace CVSS4

theorem findSome?_eq_find?_spec {α : Type} (f : α → Option String)
    (pred : α → Bool) (msg : α → String) (l : List α)
    (h : ∀ x ∈ l, f x = if pred x then some (msg x) else none) :
    l.findSome? f =
      match l.find? pred with
      | none => none
      | some x => some (msg x) := by
  induction l with
  | nil => rfl
  | cons a as ih =>
    rw [List.findSome?_cons, h a (List.mem_cons_self a as)]
    rcases hp : pred a with _ | _
    · rw [if_neg (by simp)]
      simp only [List.find?, hp]
      exact ih (fun x hx => h x (List.mem_cons_of_mem a hx))
    · rw [if_pos rfl]
      simp only [List.find?, hp]

theorem firstBaseError_eq_spec (m : Metrics) :
    firstBaseError m = specFirstError m := by
  have hpw : ∀ key ∈ BASE_METRIC_ORDER,
      (match m key with
       | none => some ("Missing metric: " ++ key)
       | some v =>
         if v = "" then some ("Missing metric: " ++ key)
         else
           let validVals := metricOptions key
           if validVals.length ≠ 0 ∧ ¬ validVals.contains v = true then
             some ("Invalid value for " ++ key ++ ": " ++ v)
           else none) =
      (if (decide (jsOr (m key) "" = "" ∨
          ¬ (metricOptions key).contains (jsOr (m key) "") = true)) then
        some (if jsOr (m key) "" = "" then "Missing metric: " ++ key
          else "Invalid value for " ++ key ++ ": " ++ jsOr (m key) "")
      else none) := by
    intro key hk
    rcases hmk : m key with _ | v
    · simp only [hmk]
      simp [jsOr]
    · by_cases hve : v = ""
      · subst hve
        simp only [hmk]
        simp [jsOr]
      · have hj : jsOr (some v) "" = v := by simp [jsOr, hve]
        simp only [hmk, hj]
        rw [if_neg hve]
        by_cases hc : (metricOptions key).contains v = true
        · rw [if_neg, if_neg]
          · simp only [decide_eq_true_eq]
            push_neg
            exact ⟨hve, hc⟩
          · rintro ⟨_, hnc⟩
            exact hnc hc
        · rw [if_pos ⟨metricOptions_ne_nil hk, hc⟩,
            if_pos (by simp only [decide_eq_true_eq]; exact Or.inr hc),
            if_neg hve]
  unfold firstBaseError specFirstError
  rw [findSome?_eq_find?_spec _ _ _ _ hpw]
  rcases List.find? (fun key => decide (jsOr (m key) "" = "" ∨
    ¬ (metricOptions key).contains (jsOr (m key) "") = true))
    BASE_METRIC_ORDER with _ | x <;> rfl

/-- C8 counterexample: an input with a leading space does not start with
the prefix `CVSS:4.0/`, yet `parseVector` trims first and accepts it. -/
theorem parseVector_trims_before_prefix_check :
    jsStartsWith
      " CVSS:4.0/AV:N/AC:L/AT:N/PR:N/UI:N/VC:H/VI:H/VA:H/SC:N/SI:N/SA:N"
      "CVSS:4.0/" = false ∧
    (parseVector
      " CVSS:4.0/AV:N/AC:L/AT:N/PR:N/UI:N/VC:H/VI:H/VA:H/SC:N/SI:N/SA:N"
      ).isValid = true := by
  refine ⟨by decide, by decide⟩

/-- C8 (amended): `parseVector` fails with a format error for every
input that is empty or whose trimmed form does not start with
`CVSS:4.0/`; otherwise it reports the first base metric in the fixed
order that is absent (naming it) or carries an out-of-enumeration value
(naming metric and value), and reports valid — regardless of extra
tokens — when no required base metric is missing or invalid. -/
theorem parseVector_error_spec (s : String) :
    (s = "" → parseVector s = ⟨none, false, some "Empty vector"⟩) ∧
    (s ≠ "" → jsStartsWith (jsTrim s) "CVSS:4.0/" = false →
      parseVector s = ⟨none, false, some "Must start with CVSS:4.0/"⟩) ∧
    (s ≠ "" → jsStartsWith (jsTrim s) "CVSS:4.0/" = true →
      parseVector s =
        match specFirstError (vectorAssignments s) with
        | some e => ⟨some (vectorAssignments s), false, some e⟩
        | none => ⟨some (vectorAssignments s), true, none⟩) := by
  refine ⟨?_, ?_, ?_⟩
  · intro h
    unfold parseVector
    rw [if_pos h]
  · intro h1 h2
    unfold parseVector
    rw [if_neg h1, if_pos (by simp [h2])]
  · intro h1 h2
    rw [parseVector_eq_of_pfx s h1 h2,
      firstBaseError_eq_spec (vectorAssignments s)]

/-- C8 witness: the three behaviours at concrete inputs — empty, wrong
prefix, and a prefix-correct string whose first problem is a missing
`AV`. -/
theorem parseVector_error_spec_witness :
    parseVector "" = ⟨none, false, some "Empty vector"⟩ ∧
    parseVector "CVSS:3.1/AV:N" =
      ⟨none, false, some "Must start with CVSS:4.0/"⟩ ∧
    parseVector "CVSS:4.0/AC:L/AT:N/PR:N/UI:N/VC:H" =
      match specFirstError
        (vectorAssignments "CVSS:4.0/AC:L/AT:N/PR:N/UI:N/VC:H") with
      | some e =>
        ⟨some (vectorAssignments "CVSS:4.0/AC:L/AT:N/PR:N/UI:N/VC:H"),
          false, some e⟩
      | none =>
        ⟨some (vectorAssignments "CVSS:4.0/AC:L/AT:N/PR:N/UI:N/VC:H"),
          true, none⟩ :=
  ⟨(parseVector_error_spec "").1 rfl,
   (parseVector_error_spec "CVSS:3.1/AV:N").2.1 (by decide) (by decide),
   (parseVector_error_spec "CVSS:4.0/AC:L/AT:N/PR:N/UI:N/VC:H").2.2
     (by decide) (by decide)⟩

end CVSS4
